import Mathlib

/-!
# WhatsApp connection-state reconciliation engine: a shallow embedding

This file embeds the connection-lifecycle module of the `wa-service`
repository (`lib/whatsapp.ts`, the Baileys-backed version) in Lean and
proves or refutes the specification claims about it.

Modelling conventions:

* The module-level mutable variables (`whatsappState`, `currentQRCode`,
  `qrExpiresAt`, `socket`, `isInitializing`, `initializationPromise`,
  `qrCodePromise`, `qrCodeResolver`, `reconnectTimer`, `reconnectAttempts`,
  `isCleaningUp`) become the fields of a single state record `Sys`.
* Timestamps are naturals (milliseconds).  `Date.now()` values observed at
  the successive suspension points of an operation are supplied as
  environment parameters.
* A Baileys socket is modelled by its two observable aspects: the
  authenticated-identity field `user` (the `(socket as any).user` probe)
  and whether our `connection.update` / `creds.update` listeners are
  attached.  Promises are modelled by presence booleans; a pending timer by
  `Option Nat` holding the scheduled delay.
* JavaScript is single threaded: interleaving happens only at `await`
  points.  Operations are modelled as state transformers; external
  activity (transport events, the asynchronous QR-image encode callback,
  completion of a detached cleanup) is modelled by `ExtEvent` transitions,
  which are also applied at the major internal suspension points of the
  long-running operations.
-/

namespace WAService

/-- The coarse lifecycle phase (`WhatsAppState.state` in the source). -/
inductive Phase
  | DISCONNECTED
  | CONNECTING
  | QR_READY
  | CONNECTED
  | PAIRING
deriving DecidableEq, Repr

/-- A transport session handle.  `user` is the authenticated-identity field
that the code probes via `(socket as any).user`; `listeners` records whether
our event subscriptions are attached (`socket.ev.on` / `removeAllListeners`). -/
structure Socket where
  user : Option String
  listeners : Bool
deriving DecidableEq, Repr

/-- The complete mutable module state of `lib/whatsapp.ts`. -/
structure Sys where
  /-- Mirror of `whatsappState.connected`. -/
  connected : Bool
  /-- Mirror of `whatsappState.state`. -/
  state : Phase
  /-- Mirror of `whatsappState.hasQR`. -/
  hasQR : Bool
  /-- Mirror of `currentQRCode` (a data-URL image when present). -/
  currentQRCode : Option String
  /-- Mirror of `qrExpiresAt` (ms timestamp). -/
  qrExpiresAt : Option Nat
  /-- Mirror of `socket`. -/
  socket : Option Socket
  /-- Mirror of `isInitializing`. -/
  isInitializing : Bool
  /-- Presence of `initializationPromise` (non-null). -/
  initializationPromise : Bool
  /-- Presence of `qrCodePromise` (non-null). -/
  qrCodePromise : Bool
  /-- Presence of `qrCodeResolver` (non-null). -/
  qrCodeResolver : Bool
  /-- Mirror of `reconnectTimer`: `some d` is a pending timer scheduled with delay `d` ms. -/
  reconnectTimer : Option Nat
  /-- Mirror of `reconnectAttempts`. -/
  reconnectAttempts : Nat
  /-- Mirror of `isCleaningUp`. -/
  isCleaningUp : Bool
  /-- ghost flag: a `QRCode.toDataURL` invocation from `handleConnectionUpdate`
  is pending, so its `.then` callback may still land -/
  encodePending : Bool
deriving DecidableEq, Repr

/-- Source constant `MAX_RECONNECT_ATTEMPTS = 10`. -/
def MAX_RECONNECT_ATTEMPTS : Nat := 10

/-- Source constant `INITIAL_RECONNECT_DELAY = 5000` ms. -/
def INITIAL_RECONNECT_DELAY : Nat := 5000

/-- Reconnect backoff cap: the literal `60000` at the `Math.min` call. -/
def RECONNECT_DELAY_CAP : Nat := 60000

/-- Baileys `DisconnectReason.loggedOut` = HTTP 401. -/
def loggedOutCode : Nat := 401

/-- The session-conflict status code, literal `440` in the source. -/
def conflictCode : Nat := 440

/-- Module state at process start (the initialisers of the `let` bindings). -/
def initialState : Sys :=
  { connected := false
    state := .DISCONNECTED
    hasQR := false
    currentQRCode := none
    qrExpiresAt := none
    socket := none
    isInitializing := false
    initializationPromise := false
    qrCodePromise := false
    qrCodeResolver := false
    reconnectTimer := none
    reconnectAttempts := 0
    isCleaningUp := false
    encodePending := false }

/-- Does the current socket carry the authenticated-identity field?
This is the `isActuallyConnected = !!(socket as any).user` probe
(`hasUser || hasUserId` collapses to `hasUser` since an id requires a user). -/
def userLive (s : Sys) : Bool :=
  match s.socket with
  | some sock => sock.user.isSome
  | none => false

/-- Are our event subscriptions attached to a present socket? -/
def socketListeners (s : Sys) : Bool :=
  match s.socket with
  | some sock => sock.listeners
  | none => false

/-- Function `forceSyncState` (source lines 60–107): aggressively re-derive
`connected`/`state` from the live socket's identity field. -/
def forceSyncState (s : Sys) : Sys :=
  match s.socket with
  | some sock =>
    -- hasUser / hasUserId probe
    if sock.user.isSome then
      -- socket is actually connected
      if ¬s.connected ∨ s.state ≠ .CONNECTED then
        { s with connected := true, state := .CONNECTED, hasQR := false
                 currentQRCode := none, qrExpiresAt := none
                 qrCodePromise := false, qrCodeResolver := false
                 reconnectTimer := none, reconnectAttempts := 0 }
      else s
    else
      -- socket exists but not connected
      if s.connected ∧ s.state = .CONNECTED then
        { s with connected := false, state := .DISCONNECTED }
      else s
  | none =>
    -- no socket, ensure state reflects this
    if s.connected then
      { s with connected := false, state := .DISCONNECTED }
    else s

/-- The socket-synchronisation block inside `getWhatsAppStatus`
(source lines 120–192), run after `forceSyncState`. -/
def statusSocketSync (s : Sys) : Sys :=
  match s.socket with
  | some sock =>
    let isActuallyConnected := sock.user.isSome
    if isActuallyConnected ∧ ¬s.connected then
      { s with connected := true, state := .CONNECTED, hasQR := false
               currentQRCode := none, qrExpiresAt := none
               qrCodePromise := false, qrCodeResolver := false
               reconnectTimer := none, reconnectAttempts := 0 }
    else if ¬isActuallyConnected ∧ s.connected ∧ s.state = .CONNECTED then
      { s with connected := false, state := .DISCONNECTED }
    else if isActuallyConnected ∧ s.state = .CONNECTING then
      { s with connected := true, state := .CONNECTED, hasQR := false
               currentQRCode := none, qrExpiresAt := none
               qrCodePromise := false, qrCodeResolver := false
               reconnectTimer := none, reconnectAttempts := 0 }
    else s
  | none =>
    -- no socket exists: connected := false, demote a CONNECTED phase,
    -- and cancel any pending reconnect timer
    let s1 :=
      if s.connected then
        { s with connected := false
                 state := if s.state = .CONNECTED then .DISCONNECTED else s.state }
      else s
    { s1 with reconnectTimer := none }

/-- The QR-expiry check at the end of `getWhatsAppStatus`
(source lines 194–202): clear an expired cached QR. -/
def expireQR (s : Sys) (now : Nat) : Sys :=
  match s.qrExpiresAt with
  | some e =>
    if now > e then
      { s with currentQRCode := none, qrExpiresAt := none, hasQR := false
               state := if s.state = .QR_READY then .DISCONNECTED else s.state }
    else s
  | none => s

/-- The complete state effect of one `getWhatsAppStatus()` call at time `now`. -/
def getStatusState (s : Sys) (now : Nat) : Sys :=
  expireQR (statusSocketSync (forceSyncState s)) now

/-- The object returned by `getWhatsAppStatus` (source lines 204–210).
Note that it carries `qrCode: currentQRCode || undefined`. -/
structure StatusResult where
  connected : Bool
  state : Phase
  hasQR : Bool
  qrCode : Option String
deriving DecidableEq, Repr

/-- Operation `getWhatsAppStatus()`: reconcile, then return
`{connected, state, hasQR, qrCode}` (the internal `qrExpiresAt` is not
included in the result). -/
def getWhatsAppStatus (s : Sys) (now : Nat) : Sys × StatusResult :=
  let s' := getStatusState s now
  (s', { connected := s'.connected, state := s'.state, hasQR := s'.hasQR
         qrCode := s'.currentQRCode })

/-! ## Socket cleanup (`cleanupSocket`, source lines 226–289) -/

/-- Outcomes of the transport calls attempted during teardown; each is
individually wrapped in a `try`/`catch` in the source, so a failure is
logged and swallowed. -/
structure CleanupEnv where
  logoutResult : Except String Unit
  endResult : Except String Unit
deriving Repr

/-- The synchronous prefix of `cleanupSocket` once the guards have passed
(lines 236–253): set the reentrancy flag, cancel any pending reconnect
timer, detach the event subscriptions.  Runs atomically (no `await` before
the 100 ms settle at line 259). -/
def cleanupBegin (s : Sys) : Sys :=
  { s with isCleaningUp := true, reconnectTimer := none
           socket := s.socket.map fun sock => { sock with listeners := false } }

/-- The teardown body after the settle (lines 261–281): attempt a graceful
logout, then end the connection — both failures caught and ignored — then
drop the session reference. -/
def cleanupTeardown (s : Sys) (env : CleanupEnv) : Except String Sys :=
  let _ : Unit := match env.logoutResult with
    | .ok u => u
    | .error _ => ()       -- logout error (ignored)
  let _ : Unit := match env.endResult with
    | .ok u => u
    | .error _ => ()       -- end error (ignored)
  .ok { s with socket := none }

/-- The resumption of a cleanup whose synchronous prefix already ran:
drop the session reference and clear the flag (`finally`).  Used when an
operation awaits an in-progress cleanup, and as the detached continuation
of the fire-and-forget `cleanupSocket()` call in the close handler. -/
def cleanupResume (s : Sys) : Sys :=
  if s.isCleaningUp then { s with socket := none, isCleaningUp := false } else s

/-- Function `cleanupSocket()` in full: reentrancy guard, missing-socket guard, then
the teardown; the outer `catch` still clears the session reference and the
`finally` resets the flag, so the function never throws. -/
def cleanupSocket (s : Sys) (env : CleanupEnv) : Sys :=
  if s.isCleaningUp then s           -- cleanup already in progress, skipping
  else
    match s.socket with
    | none => s
    | some _ =>
      let s1 := cleanupBegin s
      match cleanupTeardown s1 env with
      | .ok s2 => { s2 with isCleaningUp := false }
      | .error _ => { s1 with socket := none, isCleaningUp := false }

/-! ## Transport event handling (`handleConnectionUpdate`, lines 294–449) -/

/-- The synchronous part of the `qr` branch (lines 297–328): resolve the
pending QR promise if a resolver is waiting, and kick off the asynchronous
`QRCode.toDataURL` encode whose `.then` callback commits later. -/
def handleQR (s : Sys) : Sys :=
  { s with qrCodeResolver := false, encodePending := true }

/-- The `.then` callback of the QR-image encode (lines 318–324): store the
image with a 60-second validity window and move to `QR_READY`. -/
def handleQREncoded (s : Sys) (img : String) (now : Nat) : Sys :=
  { s with currentQRCode := some img, qrExpiresAt := some (now + 60 * 1000)
           hasQR := true, state := .QR_READY, encodePending := false }

/-- The `.catch` of the QR-image encode (lines 325–327): log only. -/
def handleQREncodeFailed (s : Sys) : Sys :=
  { s with encodePending := false }

/-- The `connection === 'close'` branch (lines 330–421).  Classifies the
disconnect cause, cancels any existing timer, resets the state record,
runs the synchronous prefix of the fire-and-forget `cleanupSocket()` call,
and schedules an exponential-backoff auto-reconnect
iff `!loggedOut && !conflict && attempts < MAX`. -/
def handleClose (s : Sys) (statusCode : Option Nat) : Sys :=
  let isLoggedOut := statusCode = some loggedOutCode
  let isConflict := statusCode = some conflictCode
  let shouldReconnect :=
    ¬isLoggedOut ∧ ¬isConflict ∧ s.reconnectAttempts < MAX_RECONNECT_ATTEMPTS
  -- cancel any existing reconnect timer, reset the state record, clear QR
  let s1 := { s with reconnectTimer := none
                     connected := false, state := .DISCONNECTED, hasQR := false
                     currentQRCode := none, qrExpiresAt := none
                     qrCodePromise := false, qrCodeResolver := false }
  -- `cleanupSocket().catch(...)`: its synchronous prefix runs here, the
  -- rest resumes later (`cleanupResume`)
  let s2 := if ¬s1.isCleaningUp ∧ s1.socket.isSome then cleanupBegin s1 else s1
  if shouldReconnect then
    let delay := min (INITIAL_RECONNECT_DELAY * 2 ^ s2.reconnectAttempts)
                     RECONNECT_DELAY_CAP
    { s2 with reconnectTimer := some delay
              reconnectAttempts := s2.reconnectAttempts + 1
              state := .CONNECTING }
  else
    { s2 with reconnectAttempts := 0 }

/-- The `connection === 'open'` branch (lines 422–444). -/
def handleOpen (s : Sys) : Sys :=
  { s with reconnectTimer := none, reconnectAttempts := 0
           connected := true, state := .CONNECTED, hasQR := false
           currentQRCode := none, qrExpiresAt := none
           qrCodePromise := false, qrCodeResolver := false }

/-- The `connection === 'connecting'` branch (lines 445–448). -/
def handleConnecting (s : Sys) : Sys :=
  { s with state := .CONNECTING }

/-- Sets the socket's identity field; environment action of the transport
upon successful authentication. -/
def setSocketUser (s : Sys) (u : String) : Sys :=
  { s with socket := s.socket.map fun sock => { sock with user := some u } }

/-- Clears the socket's identity field; the model treats the identity probe
as the liveness authority (spec §9), so a closed connection loses it. -/
def killSocketUser (s : Sys) : Sys :=
  { s with socket := s.socket.map fun sock => { sock with user := none } }

/-- External activity interleaved between the operations (and at their
suspension points): transport events delivered to our subscriptions,
asynchronous callbacks, completion of a detached cleanup. -/
inductive ExtEvent
  /-- Event `connection.update` with `connection: 'close'` and the given Boom
  status code; the closed connection loses its identity field. -/
  | close (statusCode : Option Nat)
  /-- Event `connection.update` with `connection: 'open'`; the transport has set
  the identity field by the time the event is delivered. -/
  | opened (u : String)
  /-- Event `connection.update` with `connection: 'connecting'`. -/
  | connecting
  /-- Event `connection.update` carrying a `qr` payload. -/
  | qr
  /-- the pending `QRCode.toDataURL(...).then` callback lands at time `now`. -/
  | qrEncoded (img : String) (now : Nat)
  /-- the pending `QRCode.toDataURL(...).catch` callback lands. -/
  | qrEncodeFailed
  /-- the detached continuation of a fire-and-forget cleanup completes. -/
  | cleanupDone
  /-- the transport silently authenticates (saved credentials) without an
  observed `open` event — the phenomenon the post-init polling exists for. -/
  | userAppears (u : String)
deriving Repr

/-- Apply one external event.  `connection.update` events reach the handler
only while our subscriptions are attached to a live socket. -/
def applyExt (s : Sys) : ExtEvent → Sys
  | .close code => if socketListeners s then handleClose (killSocketUser s) code else s
  | .opened u => if socketListeners s then handleOpen (setSocketUser s u) else s
  | .connecting => if socketListeners s then handleConnecting s else s
  | .qr => if socketListeners s then handleQR s else s
  | .qrEncoded img now => if s.encodePending then handleQREncoded s img now else s
  | .qrEncodeFailed => if s.encodePending then handleQREncodeFailed s else s
  | .cleanupDone => cleanupResume s
  | .userAppears u => if socketListeners s then setSocketUser s u else s

/-! ## Initialization (`initializeWhatsApp`, source lines 725–905) -/

/-- Environment of one initialization attempt. -/
structure InitEnv where
  /-- environment for a cleanup of a stale disconnected socket (line 785) -/
  cleanup : CleanupEnv
  /-- When `some e`, the transport threw during session creation
  (`useMultiFileAuthState` / `fetchLatestBaileysVersion` / `makeWASocket`) -/
  creationError : Option String
  /-- the identity observed on the fresh socket during the bounded
  post-creation polling window (lines 858–891); `none` if it never appears -/
  freshUser : Option String
deriving Repr

/-- How one `initializeWhatsApp()` call resolved. -/
inductive InitOutcome
  /-- returned at the strict already-connected check (lines 732–749) -/
  | skippedConnected
  /-- returned the existing in-flight promise (lines 751–755) -/
  | joinedInFlight
  /-- socket exists mid-handshake or in an unknown state — no-op
  (lines 775–793) -/
  | skippedMidHandshake
  /-- socket still exists after the cleanup check (lines 795–799) -/
  | skippedSocketExists
  /-- the initialization body completed -/
  | ok
  /-- the initialization body threw; the error propagates to the caller -/
  | failed (e : String)
deriving DecidableEq, Repr

/-- Completion of the initialization body (the async IIFE, lines 805–902),
from the point where `isInitializing` is already set.  On failure
(`catch`, lines 892–901): phase forced to `DISCONNECTED`, socket dropped,
QR promise cleared, and the error is returned; `finally` clears
`isInitializing` either way.  On success: QR promise and resolver created
before the socket (lines 819–823), socket created with subscriptions
attached (lines 826–845), phase set to `CONNECTING` (line 848), then the
post-init polling window force-corrects to `CONNECTED` if the identity
field silently appeared (lines 858–891). -/
def initBodyComplete (s : Sys) (env : InitEnv) : Sys × Option String :=
  match env.creationError with
  | some e =>
    ({ s with state := .DISCONNECTED, socket := none
              qrCodePromise := false, qrCodeResolver := false
              isInitializing := false }, some e)
  | none =>
    let s1 := { s with qrCodePromise := true, qrCodeResolver := true
                       socket := some { user := none, listeners := true }
                       state := .CONNECTING }
    let s2 :=
      match env.freshUser with
      | some u =>
        let su := setSocketUser s1 u
        if ¬su.connected then
          { su with connected := true, state := .CONNECTED, hasQR := false
                    currentQRCode := none, qrExpiresAt := none
                    qrCodePromise := false, qrCodeResolver := false
                    reconnectTimer := none, reconnectAttempts := 0 }
        else su
      | none => s1
    ({ s2 with isInitializing := false }, none)

/-- Start the initialization body: set `isInitializing`, store the promise
(lines 801–805), then run the body to completion. -/
def initCreate (s : Sys) (env : InitEnv) : Sys × InitOutcome :=
  let s0 := { s with isInitializing := true, initializationPromise := true }
  match initBodyComplete s0 env with
  | (s1, some e) => (s1, .failed e)
  | (s1, none) => (s1, .ok)

/-- Lines 774–799: the mid-handshake no-op check, the stale-socket cleanup,
and the post-cleanup double check, followed by creation. -/
def initHandshakeCheck (s : Sys) (env : InitEnv) : Sys × InitOutcome :=
  if s.socket.isSome ∧ s.connected = false then
    if s.state = .CONNECTING ∨ s.state = .QR_READY ∨ s.state = .PAIRING then
      -- socket exists mid-handshake, not reinitializing
      (s, .skippedMidHandshake)
    else if s.state = .DISCONNECTED then
      -- cleanup the existing disconnected socket, settle, then double check
      let s1 := cleanupSocket s env.cleanup
      if s1.socket.isSome then (s1, .skippedSocketExists)
      else initCreate s1 env
    else
      -- socket exists in an unknown state, not reinitializing
      (s, .skippedMidHandshake)
  else
    if s.socket.isSome then (s, .skippedSocketExists)
    else initCreate s env

/-- Lines 751–772: the in-flight check, the wait for an in-progress cleanup
(whose pending teardown completes during the wait), and the timer
cancellation before initializing. -/
def initAfterConnCheck (s : Sys) (env : InitEnv) : Sys × InitOutcome :=
  if s.isInitializing ∧ s.initializationPromise then
    (s, .joinedInFlight)
  else
    let s1 := cleanupResume s
    let s2 := { s1 with reconnectTimer := none }
    initHandshakeCheck s2 env

/-- Operation `initializeWhatsApp()` in full.  The strict already-connected check
(lines 732–749) runs only when a socket exists: it probes the identity
field and also trusts `connected`, cancels any pending reconnect timer and
returns without touching anything else. -/
def initializeWhatsApp (s : Sys) (env : InitEnv) : Sys × InitOutcome :=
  match s.socket with
  | some sock =>
    if sock.user.isSome ∨ s.connected then
      ({ s with reconnectTimer := none }, .skippedConnected)
    else initAfterConnCheck s env
  | none => initAfterConnCheck s env

/-- The auto-reconnect timer callback (lines 386–411): double-check via
`getWhatsAppStatus` and the socket reference, cancel if already connected,
otherwise attempt `initializeWhatsApp`; the attempt counter resets on
success (and when the cap was reached after a failure); the timer handle
is cleared in `finally`. -/
def timerFireRun (s : Sys) (now : Nat) (env : InitEnv) : Sys :=
  let s1 := getStatusState s now
  if s1.connected ∨ s1.socket.isSome then
    { s1 with reconnectTimer := none, reconnectAttempts := 0 }
  else
    match initializeWhatsApp s1 env with
    | (s2, .failed _) =>
      let s3 :=
        if s2.reconnectAttempts ≥ MAX_RECONNECT_ATTEMPTS then
          { s2 with reconnectAttempts := 0 }
        else s2
      { s3 with reconnectTimer := none }
    | (s2, _) => { s2 with reconnectAttempts := 0, reconnectTimer := none }

/-! ## QR issuance (`generateQRCode`, source lines 456–655) -/

/-- The value returned by a successful `generateQRCode()`. -/
structure QRResult where
  qrCode : String
  expiresIn : Nat
deriving DecidableEq, Repr

/-- The errors `generateQRCode()` can throw. -/
inductive QRError
  /-- Error `'WhatsApp is already connected. No QR code needed.'`. -/
  | alreadyConnected
  /-- Error `'Failed to initialize WhatsApp client. Please try again.'`. -/
  | failedInit
  /-- Error `'WhatsApp client is not ready or QR code generation failed.'`. -/
  | notReady
  /-- an `initializeWhatsApp` failure propagated through the call -/
  | initError (e : String)
deriving DecidableEq, Repr

/-- The QR Encoder collaborator (`QRCode.toDataURL`): an opaque injective
encoding of the pairing string into a data-URL image. -/
def qrToDataURL (q : String) : String :=
  String.append "data:image/png;base64," q

/-- Value `expiresIn` as computed at the source's cache-return sites:
`qrExpiresAt ? Math.max(0, Math.floor((qrExpiresAt - now) / 1000)) : 60`
(`Nat` truncated subtraction supplies the `max 0`). -/
def expiresInAt (s : Sys) (now : Nat) : Nat :=
  match s.qrExpiresAt with
  | some e => (e - now) / 1000
  | none => 60

/-- Environment of one `generateQRCode()` call: the clock readings at its
observation points and the outcomes of its waits.  External activity during
the bounded waits is given as `ExtEvent` lists. -/
structure GenQREnv where
  /-- Clock `Date.now()` at entry (line 458, the base of `expirationTime`). -/
  t0 : Nat
  /-- time of the `getWhatsAppStatus` call at line 462 -/
  t1 : Nat
  /-- time of the cached-QR check at line 468 -/
  t2 : Nat
  /-- a settled `initializationPromise` awaited at line 484 was rejected -/
  settledRejected : Bool
  /-- completion of an awaited in-flight initialization (line 484) -/
  inFlight : InitEnv
  /-- a fresh initialization started by this call (lines 488/491) -/
  init : InitEnv
  /-- external activity during the bounded socket wait (lines 494–499) -/
  waitEvents : List ExtEvent
  /-- time of the `getWhatsAppStatus` call at line 517 -/
  t3 : Nat
  /-- time of the cache checks at lines 523–537 -/
  t4 : Nat
  /-- Holds `some (pairing string, arrival time)` if the pending-QR promise won
  the 30 s race at line 544; `none` on timeout -/
  promiseQR : Option (String × Nat)
  /-- the `QRCode.toDataURL` call at line 551 succeeded -/
  encodeOk : Bool
  /-- per iteration of the 10 × 1 s polling loop (lines 578–615):
  external activity during the sleep, then the clock reading -/
  loop : List (List ExtEvent × Nat)
  /-- time of the `getWhatsAppStatus` call at line 620 -/
  t5 : Nat
  /-- external activity during the final 3 s wait (line 637) -/
  lastEvents : List ExtEvent
  /-- time of the final checks (lines 639–651) -/
  t6 : Nat
deriving Repr

/-- Run `initializeWhatsApp`, reporting a thrown error (which
`generateQRCode` would propagate) as `some e`. -/
def initAndTrack (s : Sys) (env : InitEnv) : Sys × Option String :=
  match initializeWhatsApp s env with
  | (sb, .failed e) => (sb, some e)
  | (sb, _) => (sb, none)

/-- Lines 476–492 when no socket exists: await the ongoing initialization
(re-initializing if its promise was rejected), or await a settled promise
(re-initializing if it was rejected), or start a fresh initialization. -/
def ensureSocketStep (s : Sys) (env : GenQREnv) : Sys × Option String :=
  if s.initializationPromise then
    if s.isInitializing then
      -- wait for the ongoing initialization to complete
      match initBodyComplete s env.inFlight with
      | (sa, none) => (sa, none)
      | (sa, some _) =>
        -- initialization promise rejected: try to initialize again;
        -- a failure of that call propagates (line 488)
        initAndTrack sa env.init
    else if env.settledRejected then initAndTrack s env.init
    else (s, none)
  else initAndTrack s env.init

/-- Lines 476–505: ensure a socket exists — await or (re)start an
initialization when there is none, propagating an initialization error,
then wait a bounded time for the socket reference to appear. -/
def ensureSocket (s : Sys) (env : GenQREnv) : Sys × Option String :=
  if s.socket.isSome then (s, none)
  else
    match ensureSocketStep s env with
    | (s1, some e) => (s1, some e)
    | (s1, none) =>
      -- wait up to 20 × 100 ms for the socket (lines 494–499)
      (env.waitEvents.foldl applyExt s1, none)

/-- Lines 619–655: the final fallback — reconcile once more, return even an
expired cached QR, give a connecting socket one last 3 s window, then fail. -/
def genQRFinal (s : Sys) (env : GenQREnv) : Sys × Except QRError QRResult :=
  let s1 := getStatusState s env.t5
  if s1.connected then (s1, .error .alreadyConnected)
  else
    match s1.currentQRCode with
    | some q =>
      -- returning expired QR code as fallback (lines 626–632)
      (s1, .ok ⟨q, 0⟩)
    | none =>
      if s1.socket.isSome ∧ s1.state = .CONNECTING then
        let s2 := env.lastEvents.foldl applyExt s1
        let s3 := getStatusState s2 env.t6
        if s3.connected then (s3, .error .alreadyConnected)
        else
          match s3.currentQRCode with
          | some q => (s3, .ok ⟨q, expiresInAt s3 env.t6⟩)
          | none => (s3, .error .notReady)
      else (s1, .error .notReady)

/-- The 10 × 1 s polling loop body (lines 578–615).  Each iteration sleeps
(external activity lands), returns any cached QR, reconciles, rejects if
connected, and re-checks the cache. -/
def genQRPollLoop : Sys → List (List ExtEvent × Nat) →
    Sys × Option (Except QRError QRResult)
  | s, [] => (s, none)
  | s, (evs, t) :: rest =>
    let s1 := evs.foldl applyExt s
    match s1.currentQRCode with
    | some q => (s1, some (.ok ⟨q, expiresInAt s1 t⟩))
    | none =>
      let s2 := getStatusState s1 t
      if s2.connected then (s2, some (.error .alreadyConnected))
      else
        match s2.currentQRCode with
        | some q => (s2, some (.ok ⟨q, expiresInAt s2 t⟩))
        | none => genQRPollLoop s2 rest

/-- Lines 574–616 followed by the final fallback: run the polling loop only
while the phase is `CONNECTING`. -/
def genQRPoll (s : Sys) (env : GenQREnv) : Sys × Except QRError QRResult :=
  if s.state = .CONNECTING then
    match genQRPollLoop s env.loop with
    | (s1, some r) => (s1, r)
    | (s1, none) => genQRFinal s1 env
  else genQRFinal s env

/-- Lines 522–617: when the phase is `CONNECTING` or `QR_READY`, return the
cached QR (with remaining validity if unexpired, else `expiresIn: 0`), or
wait on the pending-QR promise with a 30 s timeout — on receipt the image
is encoded, cached with expiry `expirationTime` (measured from entry) and
returned with `expiresIn := 60`; on timeout or encode failure fall through
to the polling loop. -/
def genQRWait (s : Sys) (env : GenQREnv) (expirationTime : Nat) :
    Sys × Except QRError QRResult :=
  if s.state = .CONNECTING ∨ s.state = .QR_READY then
    match s.currentQRCode, s.qrExpiresAt with
    | some q, some e =>
      if env.t4 < e then (s, .ok ⟨q, (e - env.t4) / 1000⟩)
      else (s, .ok ⟨q, 0⟩)
    | some q, none => (s, .ok ⟨q, 0⟩)
    | none, _ =>
      if s.qrCodePromise then
        match env.promiseQR with
        | some (qrs, _) =>
          if env.encodeOk then
            let img := qrToDataURL qrs
            let s5 := { s with currentQRCode := some img
                               qrExpiresAt := some expirationTime }
            (s5, .ok ⟨img, 60⟩)
          else genQRPoll s env
        | none => genQRPoll s env
      else genQRPoll s env
  else genQRFinal s env

/-- Lines 476–520: ensure the socket, (re)create the pending-QR promise if
it was missed, and re-check the connection after the initialization await. -/
def genQRAfterCache (s : Sys) (env : GenQREnv) (expirationTime : Nat) :
    Sys × Except QRError QRResult :=
  match ensureSocket s env with
  | (s2, some e) => (s2, .error (.initError e))
  | (s2, none) =>
    if s2.socket.isSome then
      let s3 :=
        if ¬s2.qrCodePromise ∧ ¬s2.connected then
          { s2 with qrCodePromise := true, qrCodeResolver := true }
        else s2
      let s4 := getStatusState s3 env.t3
      if s4.connected then (s4, .error .alreadyConnected)
      else genQRWait s4 env expirationTime
    else (s2, .error .failedInit)

/-- Operation `generateQRCode()` in full (lines 456–655). -/
def generateQRCode (s : Sys) (env : GenQREnv) : Sys × Except QRError QRResult :=
  let expirationTime := env.t0 + 60 * 1000
  -- check if connected FIRST (lines 460–465)
  let s1 := getStatusState s env.t1
  if s1.connected then (s1, .error .alreadyConnected)
  else
    -- if a QR code already exists and is not expired, return it (468–474)
    match s1.currentQRCode, s1.qrExpiresAt with
    | some q, some e =>
      if env.t2 < e then (s1, .ok ⟨q, (e - env.t2) / 1000⟩)
      else genQRAfterCache s1 env expirationTime
    | some _, none => genQRAfterCache s1 env expirationTime
    | none, _ => genQRAfterCache s1 env expirationTime

/-! ## Manual reconnect (`reconnectWhatsApp`, source lines 662–718) -/

/-- Environment of one `reconnectWhatsApp()` call. -/
structure ReconnectEnv where
  /-- completion of an ongoing initialization awaited at lines 673–684 -/
  inFlight : InitEnv
  /-- environment of the cleanup at line 687 -/
  cleanup : CleanupEnv
  /-- external activity during the 1.5 s settle at line 690 -/
  settleEvents1 : List ExtEvent
  /-- environment of the reinitialization at line 707 -/
  init : InitEnv
  /-- external activity during the 1.5 s settle at line 710 -/
  settleEvents2 : List ExtEvent
  /-- environment of the `generateQRCode` call at line 713 -/
  qr : GenQREnv
deriving Repr

/-- Lines 692–704: clear the connection state, the QR cache, the promises,
and reset the reconnect counter for a manual reconnect. -/
def reconnectClearState (s : Sys) : Sys :=
  { s with connected := false, state := .DISCONNECTED, hasQR := false
           currentQRCode := none, qrExpiresAt := none
           qrCodePromise := false, qrCodeResolver := false
           initializationPromise := false, isInitializing := false
           reconnectAttempts := 0 }

/-- Teardown phase of `reconnectWhatsApp()` (lines 666–704): cancel the
pending reconnect timer, await any ongoing initialization, tear the socket
down, settle, and clear all state. -/
def reconnectPrep (s : Sys) (env : ReconnectEnv) : Sys :=
  let s1 := { s with reconnectTimer := none }
  let s2 :=
    if s1.isInitializing ∧ s1.initializationPromise then
      (initBodyComplete s1 env.inFlight).1
    else s1
  let s3 := cleanupSocket s2 env.cleanup
  let s4 := env.settleEvents1.foldl applyExt s3
  reconnectClearState s4

/-- Operation `reconnectWhatsApp()` in full: run the teardown phase, then
reinitialize (failures propagate), settle again, and delegate to
`generateQRCode` (lines 707–717). -/
def reconnectWhatsApp (s : Sys) (env : ReconnectEnv) :
    Sys × Except QRError QRResult :=
  match initializeWhatsApp (reconnectPrep s env) env.init with
  | (s6, .failed e) => (s6, .error (.initError e))
  | (s6, _) =>
    let s7 := env.settleEvents2.foldl applyExt s6
    generateQRCode s7 env.qr

/-! ## The transition system

Reachable states: any interleaving of complete public operations, the
auto-reconnect timer callback, and individual external events, starting
from the process-start state. -/

/-- One transition of the module: an external event, or one complete run of
a public operation (with its environment), or the timer callback. -/
inductive Step : Sys → Sys → Prop
  | ext (s : Sys) (e : ExtEvent) : Step s (applyExt s e)
  | status (s : Sys) (now : Nat) : Step s (getStatusState s now)
  | initWA (s : Sys) (env : InitEnv) : Step s (initializeWhatsApp s env).1
  | genQR (s : Sys) (env : GenQREnv) : Step s (generateQRCode s env).1
  | reconn (s : Sys) (env : ReconnectEnv) : Step s (reconnectWhatsApp s env).1
  | timerFire (s : Sys) (now : Nat) (env : InitEnv)
      (h : s.reconnectTimer.isSome = true) : Step s (timerFireRun s now env)

/-- States reachable from process start. -/
def Reachable (s : Sys) : Prop :=
  Relation.ReflTransGen Step initialState s

/-! ## Concrete environments used by witnesses and counterexamples -/

/-- Cleanup environment in which both transport calls succeed. -/
def envC0 : CleanupEnv := { logoutResult := .ok (), endResult := .ok () }

/-- Cleanup environment in which both transport calls fail. -/
def envCFail : CleanupEnv :=
  { logoutResult := .error "logout boom", endResult := .error "end boom" }

/-- Initialization environment: creation succeeds, no silent connect. -/
def envI0 : InitEnv := { cleanup := envC0, creationError := none, freshUser := none }

/-- Initialization environment in which the transport throws. -/
def envIFail : InitEnv :=
  { cleanup := envC0, creationError := some "boom", freshUser := none }

/-- A quiet `generateQRCode` environment (all clocks at 0, no QR delivery). -/
def envG0 : GenQREnv :=
  { t0 := 0, t1 := 0, t2 := 0, settledRejected := false, inFlight := envI0
    init := envI0, waitEvents := [], t3 := 0, t4 := 0, promiseQR := none
    encodeOk := true, loop := [], t5 := 0, lastEvents := [], t6 := 0 }

/-! ## Claim C2: close classification, backoff schedule, counter resets -/

/-- Claim C2.  On a transport close the cause is classified into
loggedOut (401) / conflict (440) / other, and an auto-reconnect timer is
scheduled iff `!loggedOut && !conflict && attempts < MAX_RECONNECT_ATTEMPTS`;
the scheduled delay for attempt `n` is `min(5000 * 2^n, 60000)` and the
counter is incremented (and reset to 0 when no reconnect is scheduled);
the counter resets to 0 on a successful open event and on the
state-clearing step of a manual reconnect. -/
theorem close_backoff_schedule (s : Sys) (code : Option Nat) :
    ((handleClose s code).reconnectTimer =
      if code ≠ some loggedOutCode ∧ code ≠ some conflictCode ∧
          s.reconnectAttempts < MAX_RECONNECT_ATTEMPTS then
        some (min (INITIAL_RECONNECT_DELAY * 2 ^ s.reconnectAttempts)
          RECONNECT_DELAY_CAP)
      else none) ∧
    ((handleClose s code).reconnectAttempts =
      if code ≠ some loggedOutCode ∧ code ≠ some conflictCode ∧
          s.reconnectAttempts < MAX_RECONNECT_ATTEMPTS then
        s.reconnectAttempts + 1
      else 0) ∧
    (handleOpen s).reconnectAttempts = 0 ∧
    (reconnectClearState s).reconnectAttempts = 0 := by
  unfold handleClose handleOpen reconnectClearState cleanupBegin
  by_cases h1 : code = some loggedOutCode <;>
    by_cases h2 : code = some conflictCode <;>
    by_cases h3 : s.reconnectAttempts < MAX_RECONNECT_ATTEMPTS <;>
    simp [h1, h2, h3] <;> split <;> simp

/-! ## Claim C5: close with cause loggedOut -/

/-- A reachable-shaped state with a live connected socket and a nonzero
reconnect counter, used to refute the counter-unchanged part of claim C5. -/
def c5State : Sys :=
  { initialState with connected := true, state := .CONNECTED
                      socket := some { user := some "self", listeners := true }
                      reconnectAttempts := 3 }

/-- Claim C5, counterexample.  The claim says the close handling leaves the
reconnect counter unchanged on a loggedOut close; but from a state with
counter 3, the transport close event with cause loggedOut (401) resets the
counter to 0. -/
theorem close_loggedOut_counter_reset_cex :
    c5State.reconnectAttempts = 3 ∧
    (applyExt c5State (.close (some loggedOutCode))).reconnectAttempts = 0 ∧
    (applyExt c5State (.close (some loggedOutCode))).reconnectAttempts ≠
      c5State.reconnectAttempts := by
  refine ⟨rfl, rfl, by decide⟩

/-- Claim C5, amended.  On a transport close whose cause is classified as
loggedOut, the phase becomes `DISCONNECTED`, no auto-reconnect timer is
scheduled, and the reconnect counter is reset to 0. -/
theorem close_loggedOut_no_reconnect (s : Sys) :
    (handleClose s (some loggedOutCode)).state = Phase.DISCONNECTED ∧
    (handleClose s (some loggedOutCode)).reconnectTimer = none ∧
    (handleClose s (some loggedOutCode)).reconnectAttempts = 0 := by
  unfold handleClose cleanupBegin
  simp [loggedOutCode]
  split <;> simp

/-! ## Helper lemmas about the status reconciliation -/

/-- Status reconciliation never creates or destroys the session handle. -/
theorem forceSyncState_socket (s : Sys) : (forceSyncState s).socket = s.socket := by
  unfold forceSyncState
  rcases hs : s.socket with _ | sock <;> simp [hs] <;> split_ifs <;> simp [hs]

theorem statusSocketSync_socket (s : Sys) :
    (statusSocketSync s).socket = s.socket := by
  unfold statusSocketSync
  rcases hs : s.socket with _ | sock <;> simp [hs] <;> split_ifs <;> simp [hs]

theorem expireQR_socket (s : Sys) (now : Nat) :
    (expireQR s now).socket = s.socket := by
  unfold expireQR
  rcases hs : s.qrExpiresAt with _ | e <;> simp [hs] <;> split_ifs <;> simp [hs]

theorem expireQR_reconnectTimer (s : Sys) (now : Nat) :
    (expireQR s now).reconnectTimer = s.reconnectTimer := by
  unfold expireQR
  rcases hs : s.qrExpiresAt with _ | e <;> simp [hs] <;> split_ifs <;> simp [hs]

theorem expireQR_connected (s : Sys) (now : Nat) :
    (expireQR s now).connected = s.connected := by
  unfold expireQR
  rcases hs : s.qrExpiresAt with _ | e <;> simp [hs] <;> split_ifs <;> simp [hs]

theorem getStatusState_socket (s : Sys) (now : Nat) :
    (getStatusState s now).socket = s.socket := by
  unfold getStatusState
  rw [expireQR_socket, statusSocketSync_socket, forceSyncState_socket]

/-- When no session exists, the reconciliation pass cancels any pending
reconnect timer (source lines 186–192). -/
theorem getStatusState_timer_none_of_no_socket (s : Sys) (now : Nat)
    (h : s.socket = none) : (getStatusState s now).reconnectTimer = none := by
  unfold getStatusState
  rw [expireQR_reconnectTimer]
  have h2 : (forceSyncState s).socket = none := by rw [forceSyncState_socket, h]
  unfold statusSocketSync
  rw [h2]

/-- The expiry sweep keeps a disconnected verdict disconnected. -/
theorem expireQR_keeps_disconnected (t : Sys) (now : Nat)
    (hc : t.connected = false) (hst : t.state = .DISCONNECTED) :
    (expireQR t now).connected = false ∧
    (expireQR t now).state = .DISCONNECTED := by
  simp only [expireQR]
  rcases he : t.qrExpiresAt with _ | e
  · simp [he, hc, hst]
  · simp only [he]
    split_ifs <;> simp [hc, hst]

/-- When no session exists and the phase is already `DISCONNECTED`, a status
read reports disconnected without any error. -/
theorem getStatusState_no_socket_disconnected (s : Sys) (now : Nat)
    (h : s.socket = none) (h2 : s.state = .DISCONNECTED) :
    (getStatusState s now).connected = false ∧
    (getStatusState s now).state = .DISCONNECTED := by
  have hf : (forceSyncState s).connected = false ∧
      (forceSyncState s).state = .DISCONNECTED ∧
      (forceSyncState s).socket = none := by
    unfold forceSyncState
    rw [h]
    split_ifs <;> simp_all
  have hs1 : (statusSocketSync (forceSyncState s)).connected = false ∧
      (statusSocketSync (forceSyncState s)).state = .DISCONNECTED := by
    unfold statusSocketSync
    rw [hf.2.2]
    simp [hf.1, hf.2.1]
  exact expireQR_keeps_disconnected _ now hs1.1 hs1.2

/-! ## Claim C4: the shape of the status result -/

/-- A state holding a cached, unexpired QR image. -/
def c4State : Sys :=
  { initialState with state := .QR_READY, hasQR := true
                      currentQRCode := some "imgC4", qrExpiresAt := some 100000
                      socket := some { user := none, listeners := true }
                      qrCodePromise := true }

/-- Claim C4, counterexample.  The claim says the QR image itself is never
included in the status result; but `getWhatsAppStatus` returns
`qrCode: currentQRCode || undefined` (source line 209), so with a cached QR
the image is part of the result. -/
theorem status_returns_qr_image_cex :
    (getWhatsAppStatus c4State 0).2.qrCode = some "imgC4" ∧
    (getWhatsAppStatus c4State 0).2.qrCode ≠ none := by
  exact ⟨rfl, by decide⟩

/-- Claim C4, amended.  The status query reconciles state and returns the
fields `{connected, state, hasQR, qrCode}` of the reconciled state — the
cached QR image is included whenever present (the internal `qrExpiresAt` is
not part of the result, and an expired cache is cleared before returning,
so an expired image is never reported). -/
theorem status_result_shape (s : Sys) (now : Nat) :
    (getWhatsAppStatus s now).1 = getStatusState s now ∧
    (getWhatsAppStatus s now).2.connected = (getStatusState s now).connected ∧
    (getWhatsAppStatus s now).2.state = (getStatusState s now).state ∧
    (getWhatsAppStatus s now).2.hasQR = (getStatusState s now).hasQR ∧
    (getWhatsAppStatus s now).2.qrCode = (getStatusState s now).currentQRCode ∧
    (∀ e, (statusSocketSync (forceSyncState s)).qrExpiresAt = some e →
      now > e → (getWhatsAppStatus s now).2.qrCode = none) := by
  refine ⟨rfl, rfl, rfl, rfl, rfl, ?_⟩
  intro e he hgt
  show (expireQR (statusSocketSync (forceSyncState s)) now).currentQRCode = none
  unfold expireQR
  rw [he]
  simp [hgt]

/-! ## Claim C10: a passive status poll suppresses a pending auto-reconnect -/

/-- Claim C10.  First part: whenever no socket exists and an auto-reconnect
timer is pending, a status read cancels the timer.  Second part: a
recoverable transport close tears the socket down (the fire-and-forget
cleanup nulls it) while the backoff timer it scheduled is still pending, so
a status poll arriving in that window cancels the scheduled attempt. -/
theorem status_poll_cancels_pending_reconnect :
    (∀ s : Sys, ∀ t now : Nat, s.socket = none → s.reconnectTimer = some t →
      (getStatusState s now).reconnectTimer = none) ∧
    (∀ s : Sys, ∀ sock : Socket, ∀ code : Option Nat, ∀ now : Nat,
      s.socket = some sock → sock.listeners = true → s.isCleaningUp = false →
      code ≠ some loggedOutCode → code ≠ some conflictCode →
      s.reconnectAttempts < MAX_RECONNECT_ATTEMPTS →
      (cleanupResume (applyExt s (.close code))).socket = none ∧
      ((cleanupResume (applyExt s (.close code))).reconnectTimer).isSome = true ∧
      (getStatusState (cleanupResume (applyExt s (.close code))) now).reconnectTimer
        = none) := by
  constructor
  · intro s t now h _
    exact getStatusState_timer_none_of_no_socket s now h
  · intro s sock code now hsock hl hcl h401 h440 hmax
    have hlive : socketListeners s = true := by
      unfold socketListeners; rw [hsock]; exact hl
    have happ : applyExt s (.close code) =
        handleClose (killSocketUser s) code := by
      unfold applyExt; rw [hlive]; simp
    rw [happ]
    unfold handleClose killSocketUser cleanupBegin cleanupResume
    rw [hsock]
    simp only [Option.map_some', Option.isSome_some]
    split_ifs <;> simp_all <;>
      exact getStatusState_timer_none_of_no_socket _ now (by rfl)

/-- A state with a pending reconnect timer and no socket. -/
def c10TimerState : Sys := { initialState with reconnectTimer := some 5000 }

/-- A connected state about to receive a recoverable close. -/
def c10LiveState : Sys :=
  { initialState with socket := some { user := some "self", listeners := true }
                      connected := true, state := .CONNECTED }

/-- Claim C10, witness: both parts at concrete inputs. -/
theorem status_poll_cancels_pending_reconnect_witness :
    (getStatusState c10TimerState 0).reconnectTimer = none ∧
    (cleanupResume (applyExt c10LiveState (.close (some 500)))).socket = none ∧
    ((cleanupResume (applyExt c10LiveState (.close (some 500)))).reconnectTimer).isSome
      = true ∧
    (getStatusState (cleanupResume (applyExt c10LiveState (.close (some 500)))) 7
      ).reconnectTimer = none := by
  have h1 := status_poll_cancels_pending_reconnect.1 c10TimerState 5000 0 rfl rfl
  have h2 := status_poll_cancels_pending_reconnect.2 c10LiveState
    { user := some "self", listeners := true } (some 500) 7 rfl rfl rfl
    (by decide) (by decide) (by decide)
  exact ⟨h1, h2.1, h2.2.1, h2.2.2⟩

/-! ## Claim C7: cleanup is reentrancy-guarded, idempotent, never throws -/

/-- Claim C7.  The cleanup routine is reentrancy-guarded (a call made while
`isCleaningUp` is set returns the state unchanged — in particular a second
concurrent call entering at any suspension point of a running teardown,
whose synchronous prefix `cleanupBegin` has set the flag, performs no
teardown step), is a no-op without a session, and when it does run it is
total (the model never produces an error), drops the session reference and
clears the flag whatever the transport-call outcomes, and its result does
not depend on whether logout/end failed. -/
theorem cleanup_reentrant_total (s : Sys) (env env2 : CleanupEnv) :
    (s.isCleaningUp = true → cleanupSocket s env = s) ∧
    (s.socket = none → cleanupSocket s env = s) ∧
    (s.isCleaningUp = false → s.socket.isSome = true →
      (cleanupSocket s env).socket = none ∧
      (cleanupSocket s env).isCleaningUp = false ∧
      cleanupSocket s env = cleanupSocket s env2) ∧
    ((cleanupBegin s).isCleaningUp = true ∧
      cleanupSocket (cleanupBegin s) env2 = cleanupBegin s) := by
  refine ⟨?_, ?_, ?_, rfl, ?_⟩
  · intro h
    unfold cleanupSocket
    simp [h]
  · intro h
    unfold cleanupSocket
    rw [h]
    split_ifs <;> rfl
  · intro h1 h2
    rcases hs : s.socket with _ | sock
    · rw [hs] at h2; simp at h2
    · unfold cleanupSocket cleanupTeardown
      simp [h1, hs]
  · unfold cleanupSocket
    simp [cleanupBegin]

/-- A state with a live socket, for exercising a full teardown. -/
def c7State : Sys :=
  { initialState with socket := some { user := some "self", listeners := true } }

/-- Claim C7, witness: a teardown under failing transport calls completes,
drops the socket, clears the flag, agrees with the all-success run, and a
call during the teardown (after `cleanupBegin`) is a no-op. -/
theorem cleanup_reentrant_total_witness :
    (cleanupSocket c7State envCFail).socket = none ∧
    (cleanupSocket c7State envCFail).isCleaningUp = false ∧
    cleanupSocket c7State envCFail = cleanupSocket c7State envC0 ∧
    cleanupSocket (cleanupBegin c7State) envC0 = cleanupBegin c7State := by
  have h := cleanup_reentrant_total c7State envCFail envC0
  exact ⟨(h.2.2.1 rfl rfl).1, (h.2.2.1 rfl rfl).2.1, (h.2.2.1 rfl rfl).2.2,
    h.2.2.2.2⟩

/-! ## Claim C8: initialization no-op guards -/

/-- Claim C8.  First part: with an existing not-connected session whose
phase is `CONNECTING`, `QR_READY` or `PAIRING`, `initializeWhatsApp` is a
no-op — it returns having only cancelled the pending reconnect timer,
leaving the socket and every connection-state field untouched and creating
nothing.  Second part: while an initialization is in flight, a second
caller is handed the same in-flight promise and the state is untouched. -/
theorem init_noop_and_join :
    (∀ s : Sys, ∀ env : InitEnv, ∀ sock : Socket,
      s.socket = some sock → sock.user = none → s.connected = false →
      s.isInitializing = false → s.isCleaningUp = false →
      (s.state = .CONNECTING ∨ s.state = .QR_READY ∨ s.state = .PAIRING) →
      initializeWhatsApp s env =
        ({ s with reconnectTimer := none }, .skippedMidHandshake)) ∧
    (∀ s : Sys, ∀ env : InitEnv,
      s.isInitializing = true → s.initializationPromise = true →
      userLive s = false → s.connected = false →
      initializeWhatsApp s env = (s, .joinedInFlight)) := by
  constructor
  · intro s env sock hsock huser hconn hinit hclean hstate
    unfold initializeWhatsApp
    rw [hsock]
    simp [huser, hconn]
    unfold initAfterConnCheck
    simp [hinit]
    unfold cleanupResume
    simp [hclean]
    unfold initHandshakeCheck
    rcases hstate with h | h | h <;> simp [hsock, hconn, h, hinit]
  · intro s env hinit hprom huser hconn
    have hjoin : initAfterConnCheck s env = (s, .joinedInFlight) := by
      unfold initAfterConnCheck
      simp [hinit, hprom]
    unfold initializeWhatsApp
    rcases hs : s.socket with _ | sock
    · exact hjoin
    · have : sock.user.isSome = false := by
        unfold userLive at huser
        rw [hs] at huser
        exact huser
      simp [this, hconn]
      exact hjoin

/-- A mid-handshake state (socket present, `QR_READY`, not connected). -/
def c8aState : Sys :=
  { initialState with socket := some { user := none, listeners := true }
                      state := .QR_READY }

/-- A state with an initialization in flight. -/
def c8bState : Sys :=
  { initialState with isInitializing := true, initializationPromise := true }

/-- Claim C8, witness: both no-op guards at concrete inputs. -/
theorem init_noop_and_join_witness :
    initializeWhatsApp c8aState envI0 =
      ({ c8aState with reconnectTimer := none }, .skippedMidHandshake) ∧
    initializeWhatsApp c8bState envI0 = (c8bState, .joinedInFlight) := by
  exact ⟨init_noop_and_join.1 c8aState envI0 _ rfl rfl rfl rfl rfl
      (Or.inr (Or.inl rfl)),
    init_noop_and_join.2 c8bState envI0 rfl rfl rfl rfl⟩

/-! ## Claim C9: initialization failure is contained -/

/-- Claim C9.  If the transport throws during session creation, the failed
session is discarded (socket reference `none`), the phase is forced to
`DISCONNECTED`, the error is returned to the immediate caller only, and a
subsequent passive status read reports disconnected without any error. -/
theorem init_failure_contained (s : Sys) (env : InitEnv) (e : String)
    (h1 : s.socket = none) (h2 : s.isInitializing = false)
    (h3 : s.isCleaningUp = false) (h4 : env.creationError = some e) :
    (initializeWhatsApp s env).2 = .failed e ∧
    (initializeWhatsApp s env).1.socket = none ∧
    (initializeWhatsApp s env).1.state = .DISCONNECTED ∧
    (initializeWhatsApp s env).1.isInitializing = false ∧
    ∀ now : Nat,
      (getWhatsAppStatus (initializeWhatsApp s env).1 now).2.connected = false ∧
      (getWhatsAppStatus (initializeWhatsApp s env).1 now).2.state
        = .DISCONNECTED := by
  have hres : initializeWhatsApp s env =
      ({ s with reconnectTimer := none, initializationPromise := true
                state := .DISCONNECTED, socket := none
                qrCodePromise := false, qrCodeResolver := false
                isInitializing := false }, .failed e) := by
    unfold initializeWhatsApp initAfterConnCheck initHandshakeCheck initCreate
      initBodyComplete cleanupResume
    simp [h1, h2, h3, h4]
  rw [hres]
  refine ⟨rfl, rfl, rfl, rfl, fun now => ?_⟩
  have := getStatusState_no_socket_disconnected
    ({ s with reconnectTimer := none, initializationPromise := true
              state := .DISCONNECTED, socket := none
              qrCodePromise := false, qrCodeResolver := false
              isInitializing := false }) now rfl rfl
  exact ⟨this.1, this.2⟩

/-- Claim C9, witness: a failed initialization from the fresh start state. -/
theorem init_failure_contained_witness :
    (initializeWhatsApp initialState envIFail).2 = .failed "boom" ∧
    (initializeWhatsApp initialState envIFail).1.socket = none ∧
    (initializeWhatsApp initialState envIFail).1.state = .DISCONNECTED ∧
    (getWhatsAppStatus (initializeWhatsApp initialState envIFail).1 99
      ).2.connected = false := by
  have h := init_failure_contained initialState envIFail "boom" rfl rfl rfl rfl
  exact ⟨h.1, h.2.1, h.2.2.1, (h.2.2.2.2 99).1⟩

/-! ## Claim C6: QR request while connected -/

/-- Claim C6.  Whenever the reconciliation at the top of `generateQRCode`
reports connected, the call fails with `AlreadyConnected` immediately: the
only state change is that reconciliation pass itself, and in particular the
session reference is exactly the one the call started with — no new
transport session is created. -/
theorem genqr_already_connected (s : Sys) (env : GenQREnv)
    (h : (getStatusState s env.t1).connected = true) :
    generateQRCode s env = (getStatusState s env.t1, .error .alreadyConnected) ∧
    (generateQRCode s env).1.socket = s.socket := by
  have hmain : generateQRCode s env =
      (getStatusState s env.t1, .error .alreadyConnected) := by
    unfold generateQRCode
    simp [h]
  refine ⟨hmain, ?_⟩
  rw [hmain]
  exact getStatusState_socket s env.t1

/-- A connected state with a live socket. -/
def c6State : Sys :=
  { initialState with connected := true, state := .CONNECTED
                      socket := some { user := some "self", listeners := true } }

/-- Claim C6, witness: the connected rejection at a concrete state. -/
theorem genqr_already_connected_witness :
    generateQRCode c6State envG0 =
      (getStatusState c6State envG0.t1, QRError.alreadyConnected |> Except.error) ∧
    (generateQRCode c6State envG0).1.socket = c6State.socket := by
  exact genqr_already_connected c6State envG0 rfl

/-! ## Claim C3: QR return paths versus validity -/

/-- A state mid-handshake with a pending QR promise and no cached QR. -/
def c3State : Sys :=
  { initialState with socket := some { user := none, listeners := true }
                      state := .CONNECTING, qrCodePromise := true
                      qrCodeResolver := true, initializationPromise := true }

/-- Environment in which the pending-QR promise delivers the pairing string
10 seconds after entry (entry clock `t0 = 0`). -/
def c3Env : GenQREnv :=
  { envG0 with t3 := 5000, t4 := 5000, promiseQR := some ("PAIRSTR", 10000) }

/-- Claim C3, counterexample.  The QR promise delivers at t = 10000 ms, ten
seconds after entry; the call succeeds with `expiresIn = 60` while the
stored expiry is `t0 + 60000 = 60000`, so the remaining validity at the
moment of return is `(60000 - 10000) / 1000 = 50` seconds, not the returned
60 — the returned `expiresIn` is not the remaining validity. -/
theorem genqr_expiresIn_not_remaining_cex :
    c3Env.promiseQR = some ("PAIRSTR", 10000) ∧
    (generateQRCode c3State c3Env).2 =
      Except.ok ⟨qrToDataURL "PAIRSTR", 60⟩ ∧
    (generateQRCode c3State c3Env).1.qrExpiresAt = some 60000 ∧
    (60000 - 10000) / 1000 = 50 ∧ (50 : Nat) ≠ 60 := by
  exact ⟨rfl, rfl, rfl, rfl, by decide⟩

/-- Claim C3, amended.  A `generateQRCode` return from the unexpired-cache
check returns the cached image only while `now < expiresAt`, with
`expiresIn` equal to the remaining validity in whole seconds; whereas a QR
freshly obtained by awaiting the pending-QR future is stored with expiry
60 s measured from the call's entry time and returned with `expiresIn = 60`
regardless of how long the wait took (and the fallback paths can return an
expired cached image with `expiresIn = 0`). -/
theorem genqr_cache_hit_and_fresh :
    (∀ s : Sys, ∀ env : GenQREnv, ∀ q : String, ∀ e : Nat,
      (getStatusState s env.t1).connected = false →
      (getStatusState s env.t1).currentQRCode = some q →
      (getStatusState s env.t1).qrExpiresAt = some e →
      env.t2 < e →
      generateQRCode s env =
        (getStatusState s env.t1, .ok ⟨q, (e - env.t2) / 1000⟩)) ∧
    (∀ s : Sys, ∀ env : GenQREnv, ∀ expTime : Nat, ∀ qrs : String, ∀ tArr : Nat,
      (s.state = .CONNECTING ∨ s.state = .QR_READY) →
      s.currentQRCode = none →
      s.qrCodePromise = true →
      env.promiseQR = some (qrs, tArr) →
      env.encodeOk = true →
      genQRWait s env expTime =
        ({ s with currentQRCode := some (qrToDataURL qrs)
                  qrExpiresAt := some expTime },
         .ok ⟨qrToDataURL qrs, 60⟩)) := by
  constructor
  · intro s env q e hcon hq he ht
    unfold generateQRCode
    simp [hcon, hq, he, ht]
  · intro s env expTime qrs tArr hstate hqc hqp hpq henc
    unfold genQRWait
    rcases hstate with h | h <;> simp [h, hqc, hqp, hpq, henc]

/-- A state carrying an unexpired cached QR, for the amended-claim witness. -/
def c3CacheState : Sys :=
  { initialState with socket := some { user := none, listeners := true }
                      state := .QR_READY, hasQR := true
                      currentQRCode := some "imgC3", qrExpiresAt := some 90000 }

/-- Claim C3, witness: both amended parts at concrete inputs — a cache hit
at t = 30000 against expiry 90000 yields `expiresIn = 60`, and the fresh
path at the counterexample state yields the full-window result. -/
theorem genqr_cache_hit_and_fresh_witness :
    generateQRCode c3CacheState { envG0 with t1 := 30000, t2 := 30000 } =
      (getStatusState c3CacheState 30000, .ok ⟨"imgC3", 60⟩) ∧
    genQRWait c3State c3Env 60000 =
      ({ c3State with currentQRCode := some (qrToDataURL "PAIRSTR")
                      qrExpiresAt := some 60000 },
       .ok ⟨qrToDataURL "PAIRSTR", 60⟩) := by
  constructor
  · exact genqr_cache_hit_and_fresh.1 c3CacheState
      { envG0 with t1 := 30000, t2 := 30000 } "imgC3" 90000 rfl rfl rfl
      (by decide)
  · exact genqr_cache_hit_and_fresh.2 c3State c3Env 60000 "PAIRSTR" 10000
      (Or.inl rfl) rfl rfl rfl rfl

/-! ## The inductive invariant of reachable states (for claim C1)

Environment assumptions encoded in the transition relation: the transport
sets its identity field when a connection opens and loses it when the
connection closes (the spec's §9 note directs that this probe be treated as
the liveness authority); `connection.update` events are delivered only
while our subscriptions are attached. -/

/-- The inductive invariant:
1.  a connected verdict is always backed by a live identity on the session;
2.  phase `CONNECTED` always implies the `connected` flag;
3.  while a detached cleanup is pending, the verdict is disconnected and
    the half-destroyed socket carries neither identity nor subscriptions;
4.  at every quiescent point no initialization body is mid-flight
    (operations in this model run their initialization to completion). -/
def Inv (s : Sys) : Prop :=
  (s.connected = true → userLive s = true) ∧
  (s.state = .CONNECTED → s.connected = true) ∧
  (s.isCleaningUp = true →
    s.connected = false ∧ userLive s = false ∧ socketListeners s = false) ∧
  s.isInitializing = false

theorem inv_forceSyncState (s : Sys) (h : Inv s) : Inv (forceSyncState s) := by
  obtain ⟨h1, h2, h3, h4⟩ := h
  unfold forceSyncState
  rcases hs : s.socket with _ | sock <;> dsimp only <;> split_ifs <;>
    (try exact ⟨h1, h2, h3, h4⟩) <;>
    refine ⟨?_, ?_, fun hcl => ?_, h4⟩ <;>
    simp_all [Inv, userLive, socketListeners]

theorem inv_statusSocketSync (s : Sys) (h : Inv s) : Inv (statusSocketSync s) := by
  obtain ⟨h1, h2, h3, h4⟩ := h
  unfold statusSocketSync
  rcases hs : s.socket with _ | sock <;> dsimp only <;> split_ifs <;>
    (try exact ⟨h1, h2, h3, h4⟩) <;>
    refine ⟨?_, ?_, fun hcl => ?_, h4⟩ <;>
    simp_all [Inv, userLive, socketListeners]

theorem inv_expireQR (s : Sys) (now : Nat) (h : Inv s) : Inv (expireQR s now) := by
  obtain ⟨h1, h2, h3, h4⟩ := h
  unfold expireQR
  rcases he : s.qrExpiresAt with _ | e <;> dsimp only <;>
    (try exact ⟨h1, h2, h3, h4⟩) <;> split_ifs <;>
    (try exact ⟨h1, h2, h3, h4⟩) <;>
    refine ⟨?_, ?_, fun hcl => ?_, h4⟩ <;>
    simp_all [Inv, userLive, socketListeners]

theorem inv_getStatusState (s : Sys) (now : Nat) (h : Inv s) :
    Inv (getStatusState s now) :=
  inv_expireQR _ now (inv_statusSocketSync _ (inv_forceSyncState s h))

theorem inv_cleanupResume (s : Sys) (h : Inv s) : Inv (cleanupResume s) := by
  obtain ⟨h1, h2, h3, h4⟩ := h
  unfold cleanupResume
  split_ifs with hcl
  · refine ⟨?_, h2, ?_, h4⟩
    · intro hx
      exact absurd hx (by simp [(h3 hcl).1])
    · intro hcl'
      simp at hcl'
  · exact ⟨h1, h2, h3, h4⟩

theorem cleanupResume_isCleaningUp (s : Sys) :
    (cleanupResume s).isCleaningUp = false := by
  unfold cleanupResume
  split_ifs with hcl
  · rfl
  · simpa using hcl

theorem inv_cleanupSocket (s : Sys) (env : CleanupEnv) (h : Inv s)
    (hc : s.connected = false) : Inv (cleanupSocket s env) := by
  obtain ⟨h1, h2, h3, h4⟩ := h
  unfold cleanupSocket cleanupTeardown cleanupBegin
  split_ifs with hcl
  · exact ⟨h1, h2, h3, h4⟩
  · rcases hs : s.socket with _ | sock <;> dsimp only
    · exact ⟨h1, h2, h3, h4⟩
    · refine ⟨?_, h2, ?_, h4⟩
      · intro hx
        exact absurd hx (by simp [hc])
      · intro hcl'
        simp at hcl'

theorem cleanupSocket_connected (s : Sys) (env : CleanupEnv) :
    (cleanupSocket s env).connected = s.connected := by
  unfold cleanupSocket cleanupTeardown cleanupBegin
  split_ifs <;> rcases hs : s.socket with _ | sock <;> (try dsimp only) <;> rfl

theorem cleanupSocket_state (s : Sys) (env : CleanupEnv) :
    (cleanupSocket s env).state = s.state := by
  unfold cleanupSocket cleanupTeardown cleanupBegin
  split_ifs <;> rcases hs : s.socket with _ | sock <;> (try dsimp only) <;> rfl

theorem cleanupSocket_isInitializing (s : Sys) (env : CleanupEnv) :
    (cleanupSocket s env).isInitializing = s.isInitializing := by
  unfold cleanupSocket cleanupTeardown cleanupBegin
  split_ifs <;> rcases hs : s.socket with _ | sock <;> (try dsimp only) <;> rfl

theorem cleanupSocket_isCleaningUp (s : Sys) (env : CleanupEnv)
    (h : s.isCleaningUp = false) :
    (cleanupSocket s env).isCleaningUp = false := by
  unfold cleanupSocket cleanupTeardown cleanupBegin
  split_ifs
  · exact h
  · rcases hs : s.socket with _ | sock
    · exact h
    · rfl

theorem inv_applyExt (s : Sys) (e : ExtEvent) (h : Inv s) :
    Inv (applyExt s e) := by
  obtain ⟨h1, h2, h3, h4⟩ := h
  cases e with
  | close code =>
    show Inv (if socketListeners s = true then
      handleClose (killSocketUser s) code else s)
    by_cases hl : socketListeners s = true
    · rw [if_pos hl]
      rcases hs : s.socket with _ | sock
      · exfalso; simp [socketListeners, hs] at hl
      · have hsl : sock.listeners = true := by
          unfold socketListeners at hl; rw [hs] at hl; exact hl
        have hcl : s.isCleaningUp = false := by
          by_contra hcc
          have := (h3 (by simpa using hcc)).2.2
          simp [socketListeners, hs, hsl] at this
        unfold handleClose killSocketUser cleanupBegin
        rw [hs]
        dsimp only
        simp only [hcl, Option.map_some', Option.isSome_some]
        split_ifs <;>
          refine ⟨by simp, by simp, fun hcc => ?_, h4⟩ <;>
          simp_all [userLive, socketListeners]
    · rw [if_neg hl]; exact ⟨h1, h2, h3, h4⟩
  | opened u =>
    show Inv (if socketListeners s = true then
      handleOpen (setSocketUser s u) else s)
    by_cases hl : socketListeners s = true
    · rw [if_pos hl]
      rcases hs : s.socket with _ | sock
      · exfalso; simp [socketListeners, hs] at hl
      · have hsl : sock.listeners = true := by
          unfold socketListeners at hl; rw [hs] at hl; exact hl
        unfold handleOpen setSocketUser
        rw [hs]
        dsimp only
        refine ⟨?_, fun _ => rfl, fun hcc => ?_, h4⟩
        · intro
          simp [userLive]
        · exfalso
          have := (h3 hcc).2.2
          simp [socketListeners, hs, hsl] at this
    · rw [if_neg hl]; exact ⟨h1, h2, h3, h4⟩
  | connecting =>
    show Inv (if socketListeners s = true then handleConnecting s else s)
    by_cases hl : socketListeners s = true
    · rw [if_pos hl]
      exact ⟨h1, fun hst => by simp [handleConnecting] at hst, h3, h4⟩
    · rw [if_neg hl]; exact ⟨h1, h2, h3, h4⟩
  | qr =>
    show Inv (if socketListeners s = true then handleQR s else s)
    by_cases hl : socketListeners s = true
    · rw [if_pos hl]; exact ⟨h1, h2, h3, h4⟩
    · rw [if_neg hl]; exact ⟨h1, h2, h3, h4⟩
  | qrEncoded img now =>
    show Inv (if s.encodePending = true then handleQREncoded s img now else s)
    by_cases hp : s.encodePending = true
    · rw [if_pos hp]
      exact ⟨h1, fun hst => by simp [handleQREncoded] at hst, h3, h4⟩
    · rw [if_neg hp]; exact ⟨h1, h2, h3, h4⟩
  | qrEncodeFailed =>
    show Inv (if s.encodePending = true then handleQREncodeFailed s else s)
    by_cases hp : s.encodePending = true
    · rw [if_pos hp]; exact ⟨h1, h2, h3, h4⟩
    · rw [if_neg hp]; exact ⟨h1, h2, h3, h4⟩
  | cleanupDone =>
    exact inv_cleanupResume s ⟨h1, h2, h3, h4⟩
  | userAppears u =>
    show Inv (if socketListeners s = true then setSocketUser s u else s)
    by_cases hl : socketListeners s = true
    · rw [if_pos hl]
      rcases hs : s.socket with _ | sock
      · exfalso; simp [socketListeners, hs] at hl
      · have hsl : sock.listeners = true := by
          unfold socketListeners at hl; rw [hs] at hl; exact hl
        unfold setSocketUser
        rw [hs]
        simp only [Option.map_some']
        refine ⟨?_, fun hst => h2 hst, fun hcc => ?_, h4⟩
        · intro
          simp [userLive]
        · exfalso
          have := (h3 hcc).2.2
          simp [socketListeners, hs, hsl] at this
    · rw [if_neg hl]; exact ⟨h1, h2, h3, h4⟩

theorem inv_applyExt_foldl (events : List ExtEvent) (s : Sys) (h : Inv s) :
    Inv (events.foldl applyExt s) := by
  induction events generalizing s with
  | nil => exact h
  | cons e rest ih => exact ih _ (inv_applyExt s e h)

theorem inv_initCreate (s : Sys) (env : InitEnv)
    (hc : s.connected = false) (hfl : s.isCleaningUp = false) :
    Inv (initCreate s env).1 := by
  unfold initCreate initBodyComplete setSocketUser
  rcases he : env.creationError with _ | e <;> dsimp only
  · rcases hu : env.freshUser with _ | u <;> dsimp only
    · refine ⟨?_, ?_, fun hcc => ?_, rfl⟩
      · intro hx; exact absurd hx (by simp [hc])
      · intro hst; simp at hst
      · exact absurd hcc (by simp [hfl])
    · simp only [Option.map_some']
      split_ifs with hcond
      · exfalso; simp [hc] at hcond
      · refine ⟨?_, fun _ => rfl, fun hcc => ?_, rfl⟩
        · intro; simp [userLive]
        · exact absurd hcc (by simp [hfl])
  · refine ⟨?_, ?_, fun hcc => ?_, rfl⟩
    · intro hx; exact absurd hx (by simp [hc])
    · intro hst; simp at hst
    · exact absurd hcc (by simp [hfl])

theorem inv_initHandshakeCheck (s : Sys) (env : InitEnv) (h : Inv s)
    (hfl : s.isCleaningUp = false) : Inv (initHandshakeCheck s env).1 := by
  unfold initHandshakeCheck
  by_cases hA : s.socket.isSome = true ∧ s.connected = false
  · rw [if_pos hA]
    by_cases hB : s.state = .CONNECTING ∨ s.state = .QR_READY ∨ s.state = .PAIRING
    · rw [if_pos hB]; exact h
    · rw [if_neg hB]
      by_cases hC : s.state = .DISCONNECTED
      · rw [if_pos hC]
        dsimp only
        by_cases hD : (cleanupSocket s env.cleanup).socket.isSome = true
        · rw [if_pos hD]
          exact inv_cleanupSocket s env.cleanup h hA.2
        · rw [if_neg hD]
          apply inv_initCreate
          · rw [cleanupSocket_connected]; exact hA.2
          · exact cleanupSocket_isCleaningUp s env.cleanup hfl
      · rw [if_neg hC]; exact h
  · rw [if_neg hA]
    by_cases hD : s.socket.isSome = true
    · rw [if_pos hD]; exact h
    · rw [if_neg hD]
      apply inv_initCreate
      · by_cases hx : s.connected = true
        · exfalso
          have := h.1 hx
          unfold userLive at this
          rcases hss : s.socket with _ | sock
          · rw [hss] at this; simp at this
          · rw [hss] at hD; simp at hD
        · simpa using hx
      · exact hfl

theorem inv_initAfterConnCheck (s : Sys) (env : InitEnv) (h : Inv s) :
    Inv (initAfterConnCheck s env).1 := by
  unfold initAfterConnCheck
  by_cases hJ : s.isInitializing = true ∧ s.initializationPromise = true
  · rw [if_pos hJ]; exact h
  · rw [if_neg hJ]
    dsimp only
    apply inv_initHandshakeCheck
    · exact inv_cleanupResume s h
    · exact cleanupResume_isCleaningUp s

theorem inv_initializeWhatsApp (s : Sys) (env : InitEnv) (h : Inv s) :
    Inv (initializeWhatsApp s env).1 := by
  unfold initializeWhatsApp
  rcases hs : s.socket with _ | sock <;> dsimp only
  · exact inv_initAfterConnCheck s env h
  · by_cases hu : sock.user.isSome = true ∨ s.connected = true
    · rw [if_pos hu]
      obtain ⟨h1, h2, h3, h4⟩ := h
      refine ⟨?_, h2, fun hcc => ?_, h4⟩
      · intro hx
        have := h1 hx
        simp only [userLive, hs] at this
        simpa [userLive] using this
      · obtain ⟨hk1, hk2, hk3⟩ := h3 hcc
        refine ⟨hk1, ?_, ?_⟩
        · simp only [userLive, hs] at hk2
          simpa [userLive] using hk2
        · simp only [socketListeners, hs] at hk3
          simpa [socketListeners] using hk3
    · rw [if_neg hu]; exact inv_initAfterConnCheck s env h

theorem inv_timerFireRun (s : Sys) (now : Nat) (env : InitEnv) (h : Inv s) :
    Inv (timerFireRun s now env) := by
  unfold timerFireRun
  dsimp only
  have h1 := inv_getStatusState s now h
  by_cases hb : (getStatusState s now).connected = true ∨
      (getStatusState s now).socket.isSome = true
  · rw [if_pos hb]; exact h1
  · rw [if_neg hb]
    have h2 := inv_initializeWhatsApp (getStatusState s now) env h1
    rcases hres : initializeWhatsApp (getStatusState s now) env with ⟨s2, out⟩
    rw [hres] at h2
    cases out <;> (try dsimp only) <;> (try exact h2)
    split_ifs <;> exact h2

theorem inv_initAndTrack (s : Sys) (env : InitEnv) (h : Inv s) :
    Inv (initAndTrack s env).1 := by
  unfold initAndTrack
  have hi := inv_initializeWhatsApp s env h
  rcases hres : initializeWhatsApp s env with ⟨sb, out⟩
  rw [hres] at hi
  cases out <;> exact hi

theorem inv_ensureSocketStep (s : Sys) (env : GenQREnv) (h : Inv s) :
    Inv (ensureSocketStep s env).1 := by
  unfold ensureSocketStep
  by_cases hp : s.initializationPromise = true
  · rw [if_pos hp, if_neg (show ¬s.isInitializing = true by simp [h.2.2.2])]
    by_cases hr : env.settledRejected = true
    · rw [if_pos hr]; exact inv_initAndTrack s env.init h
    · rw [if_neg hr]; exact h
  · rw [if_neg hp]; exact inv_initAndTrack s env.init h

theorem inv_ensureSocket (s : Sys) (env : GenQREnv) (h : Inv s) :
    Inv (ensureSocket s env).1 := by
  unfold ensureSocket
  by_cases hs : s.socket.isSome = true
  · rw [if_pos hs]; exact h
  · rw [if_neg hs]
    have h1 := inv_ensureSocketStep s env h
    rcases hst : ensureSocketStep s env with ⟨s1, err⟩
    rw [hst] at h1
    rcases err with _ | e <;> (try dsimp only)
    · exact inv_applyExt_foldl _ _ h1
    · exact h1

theorem inv_genQRFinal (s : Sys) (env : GenQREnv) (h : Inv s) :
    Inv (genQRFinal s env).1 := by
  unfold genQRFinal
  dsimp only
  have h1 := inv_getStatusState s env.t5 h
  generalize hG : getStatusState s env.t5 = t at h1 ⊢
  by_cases hc : t.connected = true
  · rw [if_pos hc]; exact h1
  · rw [if_neg hc]
    rcases hq : t.currentQRCode with _ | q
    · try dsimp only
      by_cases hb : t.socket.isSome = true ∧ t.state = Phase.CONNECTING
      · rw [if_pos hb]
        try dsimp only
        have h2 := inv_getStatusState (env.lastEvents.foldl applyExt t) env.t6
          (inv_applyExt_foldl _ _ h1)
        generalize hG2 : getStatusState (env.lastEvents.foldl applyExt t) env.t6
          = t2 at h2 ⊢
        by_cases hc2 : t2.connected = true
        · rw [if_pos hc2]; exact h2
        · rw [if_neg hc2]
          rcases hq2 : t2.currentQRCode with _ | q2 <;>
            (try dsimp only) <;> exact h2
      · rw [if_neg hb]; exact h1
    · try dsimp only
      exact h1

theorem inv_genQRPollLoop (l : List (List ExtEvent × Nat)) (s : Sys)
    (h : Inv s) : Inv (genQRPollLoop s l).1 := by
  induction l generalizing s with
  | nil => exact h
  | cons p rest ih =>
    rcases p with ⟨evs, t⟩
    unfold genQRPollLoop
    dsimp only
    have h1 : Inv (evs.foldl applyExt s) := inv_applyExt_foldl evs s h
    generalize hG : evs.foldl applyExt s = u at h1 ⊢
    rcases hq : u.currentQRCode with _ | q
    · try dsimp only
      have h2 := inv_getStatusState u t h1
      generalize hG2 : getStatusState u t = v at h2 ⊢
      by_cases hc : v.connected = true
      · rw [if_pos hc]; exact h2
      · rw [if_neg hc]
        rcases hq2 : v.currentQRCode with _ | q2 <;> (try dsimp only)
        · exact ih v h2
        · exact h2
    · try dsimp only
      exact h1

theorem inv_genQRPoll (s : Sys) (env : GenQREnv) (h : Inv s) :
    Inv (genQRPoll s env).1 := by
  unfold genQRPoll
  by_cases hst : s.state = Phase.CONNECTING
  · rw [if_pos hst]
    have h1 := inv_genQRPollLoop env.loop s h
    rcases hres : genQRPollLoop s env.loop with ⟨s1, r⟩
    rw [hres] at h1
    rcases r with _ | r <;> (try dsimp only)
    · exact inv_genQRFinal s1 env h1
    · exact h1
  · rw [if_neg hst]; exact inv_genQRFinal s env h

theorem inv_genQRWait (s : Sys) (env : GenQREnv) (expTime : Nat) (h : Inv s) :
    Inv (genQRWait s env expTime).1 := by
  unfold genQRWait
  by_cases hst : s.state = Phase.CONNECTING ∨ s.state = Phase.QR_READY
  · rw [if_pos hst]
    rcases hq : s.currentQRCode with _ | q <;>
      rcases he : s.qrExpiresAt with _ | e <;> (try dsimp only)
    · by_cases hp : s.qrCodePromise = true
      · rw [if_pos hp]
        rcases hpq : env.promiseQR with _ | pair
        · try dsimp only
          exact inv_genQRPoll s env h
        · rcases pair with ⟨qrs, tArr⟩
          try dsimp only
          by_cases henc : env.encodeOk = true
          · rw [if_pos henc]; exact h
          · rw [if_neg henc]; exact inv_genQRPoll s env h
      · rw [if_neg hp]; exact inv_genQRPoll s env h
    · by_cases hp : s.qrCodePromise = true
      · rw [if_pos hp]
        rcases hpq : env.promiseQR with _ | pair
        · try dsimp only
          exact inv_genQRPoll s env h
        · rcases pair with ⟨qrs, tArr⟩
          try dsimp only
          by_cases henc : env.encodeOk = true
          · rw [if_pos henc]; exact h
          · rw [if_neg henc]; exact inv_genQRPoll s env h
      · rw [if_neg hp]; exact inv_genQRPoll s env h
    · exact h
    · split_ifs <;> exact h
  · rw [if_neg hst]; exact inv_genQRFinal s env h

theorem inv_genQRAfterCache (s : Sys) (env : GenQREnv) (expTime : Nat)
    (h : Inv s) : Inv (genQRAfterCache s env expTime).1 := by
  unfold genQRAfterCache
  have h1 := inv_ensureSocket s env h
  rcases hres : ensureSocket s env with ⟨s2, err⟩
  rw [hres] at h1
  rcases err with _ | e <;> (try dsimp only)
  · by_cases hs2 : s2.socket.isSome = true
    · rw [if_pos hs2]
      try dsimp only
      have h3 : Inv (if ¬s2.qrCodePromise = true ∧ ¬s2.connected = true then
          { s2 with qrCodePromise := true, qrCodeResolver := true } else s2) := by
        split_ifs <;> exact h1
      generalize hG : (if ¬s2.qrCodePromise = true ∧ ¬s2.connected = true then
          { s2 with qrCodePromise := true, qrCodeResolver := true } else s2)
        = s3 at h3 ⊢
      have h4 := inv_getStatusState s3 env.t3 h3
      generalize hG2 : getStatusState s3 env.t3 = s4 at h4 ⊢
      by_cases hc : s4.connected = true
      · rw [if_pos hc]; exact h4
      · rw [if_neg hc]; exact inv_genQRWait s4 env expTime h4
    · rw [if_neg hs2]; exact h1
  · exact h1

theorem inv_generateQRCode (s : Sys) (env : GenQREnv) (h : Inv s) :
    Inv (generateQRCode s env).1 := by
  unfold generateQRCode
  dsimp only
  have h1 := inv_getStatusState s env.t1 h
  generalize hG : getStatusState s env.t1 = t at h1 ⊢
  by_cases hc : t.connected = true
  · rw [if_pos hc]; exact h1
  · rw [if_neg hc]
    rcases hq : t.currentQRCode with _ | q <;>
      rcases he : t.qrExpiresAt with _ | e <;> (try dsimp only)
    · exact inv_genQRAfterCache t env _ h1
    · exact inv_genQRAfterCache t env _ h1
    · exact inv_genQRAfterCache t env _ h1
    · split_ifs
      · exact h1
      · exact inv_genQRAfterCache t env _ h1

/-- Weak invariant carried through the teardown phase of a manual
reconnect, where the connected flag may still be stale. -/
def CleanupSafe (s : Sys) : Prop :=
  s.isCleaningUp = true → userLive s = false ∧ socketListeners s = false

theorem cleanupSafe_of_inv (s : Sys) (h : Inv s) : CleanupSafe s :=
  fun hcl => ⟨(h.2.2.1 hcl).2.1, (h.2.2.1 hcl).2.2⟩

theorem cleanupSafe_cleanupSocket (s : Sys) (env : CleanupEnv)
    (h : CleanupSafe s) : CleanupSafe (cleanupSocket s env) := by
  unfold cleanupSocket cleanupTeardown cleanupBegin
  split_ifs with hcl
  · exact h
  · rcases hs : s.socket with _ | sock
    · exact h
    · intro hcc; simp at hcc

theorem cleanupSafe_applyExt (s : Sys) (e : ExtEvent) (h : CleanupSafe s) :
    CleanupSafe (applyExt s e) := by
  cases e with
  | close code =>
    show CleanupSafe (if socketListeners s = true then
      handleClose (killSocketUser s) code else s)
    by_cases hl : socketListeners s = true
    · rw [if_pos hl]
      rcases hs : s.socket with _ | sock
      · exfalso; simp [socketListeners, hs] at hl
      · have hsl : sock.listeners = true := by
          unfold socketListeners at hl; rw [hs] at hl; exact hl
        have hcl : s.isCleaningUp = false := by
          by_contra hcc
          have := (h (by simpa using hcc)).2
          simp [socketListeners, hs, hsl] at this
        unfold handleClose killSocketUser cleanupBegin
        rw [hs]
        dsimp only
        simp only [hcl, Option.map_some', Option.isSome_some]
        split_ifs <;> intro hcc <;> simp_all [userLive, socketListeners]
    · rw [if_neg hl]; exact h
  | opened u =>
    show CleanupSafe (if socketListeners s = true then
      handleOpen (setSocketUser s u) else s)
    by_cases hl : socketListeners s = true
    · rw [if_pos hl]
      intro hcc
      exfalso
      have := (h hcc).2
      rw [hl] at this
      simp at this
    · rw [if_neg hl]; exact h
  | connecting =>
    show CleanupSafe (if socketListeners s = true then handleConnecting s else s)
    split_ifs <;> exact h
  | qr =>
    show CleanupSafe (if socketListeners s = true then handleQR s else s)
    split_ifs <;> exact h
  | qrEncoded img now =>
    show CleanupSafe (if s.encodePending = true then
      handleQREncoded s img now else s)
    split_ifs <;> exact h
  | qrEncodeFailed =>
    show CleanupSafe (if s.encodePending = true then handleQREncodeFailed s else s)
    split_ifs <;> exact h
  | cleanupDone =>
    show CleanupSafe (cleanupResume s)
    intro hcc
    rw [cleanupResume_isCleaningUp] at hcc
    simp at hcc
  | userAppears u =>
    show CleanupSafe (if socketListeners s = true then setSocketUser s u else s)
    by_cases hl : socketListeners s = true
    · rw [if_pos hl]
      intro hcc
      exfalso
      have := (h hcc).2
      rw [hl] at this
      simp at this
    · rw [if_neg hl]; exact h

theorem cleanupSafe_foldl (events : List ExtEvent) (s : Sys)
    (h : CleanupSafe s) : CleanupSafe (events.foldl applyExt s) := by
  induction events generalizing s with
  | nil => exact h
  | cons e rest ih => exact ih _ (cleanupSafe_applyExt s e h)

theorem inv_reconnectClearState (s : Sys) (h : CleanupSafe s) :
    Inv (reconnectClearState s) := by
  unfold reconnectClearState
  refine ⟨?_, ?_, fun hcc => ⟨rfl, (h hcc).1, (h hcc).2⟩, rfl⟩
  · intro hx; simp at hx
  · intro hst; simp at hst

theorem inv_reconnectPrep (s : Sys) (env : ReconnectEnv) (h : Inv s) :
    Inv (reconnectPrep s env) := by
  unfold reconnectPrep
  dsimp only
  by_cases hcond : ({ s with reconnectTimer := none }).isInitializing = true ∧
      ({ s with reconnectTimer := none }).initializationPromise = true
  · exact absurd hcond.1 (by simp [h.2.2.2])
  · rw [if_neg hcond]
    apply inv_reconnectClearState
    apply cleanupSafe_foldl
    apply cleanupSafe_cleanupSocket
    exact cleanupSafe_of_inv _ h

theorem inv_reconnectWhatsApp (s : Sys) (env : ReconnectEnv) (h : Inv s) :
    Inv (reconnectWhatsApp s env).1 := by
  unfold reconnectWhatsApp
  have h5 := inv_reconnectPrep s env h
  have h6 := inv_initializeWhatsApp (reconnectPrep s env) env.init h5
  rcases hres : initializeWhatsApp (reconnectPrep s env) env.init with ⟨s6, out⟩
  rw [hres] at h6
  cases out <;> (try dsimp only) <;> (try exact h6) <;>
    exact inv_generateQRCode _ _ (inv_applyExt_foldl _ _ h6)

/-- Every transition preserves the invariant. -/
theorem inv_step {s t : Sys} (hst : Step s t) (h : Inv s) : Inv t := by
  cases hst with
  | ext e => exact inv_applyExt s e h
  | status now => exact inv_getStatusState s now h
  | initWA env => exact inv_initializeWhatsApp s env h
  | genQR env => exact inv_generateQRCode s env h
  | reconn env => exact inv_reconnectWhatsApp s env h
  | timerFire now env hT => exact inv_timerFireRun s now env h

/-- Every reachable state satisfies the invariant. -/
theorem reachable_inv (s : Sys) (h : Reachable s) : Inv s := by
  induction h with
  | refl => exact ⟨by simp [initialState, userLive], by simp [initialState],
      by simp [initialState], rfl⟩
  | tail _ hstep ih => exact inv_step hstep ih

/-- When the identity probe reports live, `forceSyncState` forces the
verdict to connected/`CONNECTED` and keeps the session. -/
theorem forceSyncState_user (s : Sys) (hu : userLive s = true) :
    (forceSyncState s).connected = true ∧
    (forceSyncState s).state = .CONNECTED ∧
    (forceSyncState s).socket = s.socket := by
  unfold forceSyncState
  rcases hs : s.socket with _ | sock
  · simp [userLive, hs] at hu
  · have hus : sock.user.isSome = true := by simpa [userLive, hs] using hu
    dsimp only
    rw [if_pos hus]
    split_ifs with hcond
    · exact ⟨rfl, rfl, rfl⟩
    · push_neg at hcond
      exact ⟨hcond.1, hcond.2, hs⟩

/-- A status read against a session whose identity probe is live reports
connected with phase `CONNECTED`. -/
theorem getStatusState_user (s : Sys) (now : Nat) (hu : userLive s = true) :
    (getStatusState s now).connected = true ∧
    (getStatusState s now).state = .CONNECTED := by
  obtain ⟨hc1, hc2, hc3⟩ := forceSyncState_user s hu
  have hu2 : userLive (forceSyncState s) = true := by
    unfold userLive at hu ⊢
    rw [hc3]
    exact hu
  have h2 : (statusSocketSync (forceSyncState s)).connected = true ∧
      (statusSocketSync (forceSyncState s)).state = .CONNECTED := by
    unfold statusSocketSync
    rcases hs : (forceSyncState s).socket with _ | sock
    · simp [userLive, hs] at hu2
    · have hus : sock.user.isSome = true := by simpa [userLive, hs] using hu2
      dsimp only
      rw [if_neg (by simp [hus, hc1]), if_neg (by simp [hus]),
        if_neg (by simp [hc2])]
      exact ⟨hc1, hc2⟩
  show (expireQR (statusSocketSync (forceSyncState s)) now).connected = true ∧
    (expireQR (statusSocketSync (forceSyncState s)) now).state = .CONNECTED
  unfold expireQR
  rcases he : (statusSocketSync (forceSyncState s)).qrExpiresAt with _ | e <;>
    (try dsimp only)
  · exact h2
  · split_ifs with hgt hqr
    · exfalso
      rw [h2.2] at hqr
      exact absurd hqr (by decide)
    · exact ⟨h2.1, h2.2⟩
    · exact h2

/-- A status read against a dead session (identity probe not live) with a
disconnected verdict keeps the verdict disconnected. -/
theorem getStatusState_dead (s : Sys) (now : Nat) (hu : userLive s = false)
    (hc : s.connected = false) :
    (getStatusState s now).connected = false := by
  have h1 : (forceSyncState s).connected = false ∧
      userLive (forceSyncState s) = false := by
    unfold forceSyncState
    rcases hs : s.socket with _ | sock <;> (try dsimp only)
    · rw [if_neg (by simp [hc])]
      exact ⟨hc, by simpa [userLive, hs] using hu⟩
    · have hus : sock.user.isSome = false := by simpa [userLive, hs] using hu
      rw [if_neg (by simp [hus]), if_neg (by simp [hc])]
      exact ⟨hc, by simpa [userLive, hs] using hu⟩
  have h2 : (statusSocketSync (forceSyncState s)).connected = false := by
    unfold statusSocketSync
    rcases hs : (forceSyncState s).socket with _ | sock <;> (try dsimp only)
    · simp [h1.1]
    · have hus : sock.user.isSome = false := by simpa [userLive, hs] using h1.2
      rw [if_neg (by simp [hus]), if_neg (by simp [h1.1]),
        if_neg (by simp [hus])]
      exact h1.1
  show (expireQR (statusSocketSync (forceSyncState s)) now).connected = false
  rw [expireQR_connected]
  exact h2

/-- Under the invariant, a status read leaves the `connected` flag and the
`CONNECTED` phase in agreement. -/
theorem post_status_agreement (s : Sys) (now : Nat) (h : Inv s) :
    ((getStatusState s now).connected = true ↔
      (getStatusState s now).state = Phase.CONNECTED) := by
  constructor
  · intro hcon
    by_cases hu : userLive s = true
    · exact (getStatusState_user s now hu).2
    · have hu' : userLive s = false := by simpa using hu
      have hc : s.connected = false := by
        by_cases hcb : s.connected = true
        · exact absurd (h.1 hcb) (by simp [hu'])
        · simpa using hcb
      rw [getStatusState_dead s now hu' hc] at hcon
      simp at hcon
  · intro hst
    exact (inv_getStatusState s now h).2.1 hst

/-! ## Claim C1: the connected/phase agreement invariant -/

/-- Claim C1, amended.  In every reachable state, phase `CONNECTED` implies
`connected = true`; and immediately after `getWhatsAppStatus` reconciles
(from any reachable state), the full biconditional
`connected = true ↔ state = CONNECTED` holds.  The original claim — that
the biconditional holds after every public operation returns — fails for
`initializeWhatsApp` (see the counterexample). -/
theorem connected_phase_agreement (s : Sys) (h : Reachable s) :
    (s.state = Phase.CONNECTED → s.connected = true) ∧
    ∀ now : Nat, ((getStatusState s now).connected = true ↔
      (getStatusState s now).state = Phase.CONNECTED) := by
  have hinv := reachable_inv s h
  exact ⟨hinv.2.1, fun now => post_status_agreement s now hinv⟩

/-- Claim C1, witness: both amended parts at the initial state. -/
theorem connected_phase_agreement_witness :
    (initialState.state = Phase.CONNECTED → initialState.connected = true) ∧
    ((getStatusState initialState 0).connected = true ↔
      (getStatusState initialState 0).state = Phase.CONNECTED) := by
  have h := connected_phase_agreement initialState Relation.ReflTransGen.refl
  exact ⟨h.1, h.2 0⟩

/-- Trace for the claim C1 counterexample, step 1: a fresh initialization
(socket created, `CONNECTING`). -/
def c1s1 : Sys := (initializeWhatsApp initialState envI0).1

/-- Step 2: the transport emits a `qr` payload; the asynchronous image
encode is kicked off. -/
def c1s2 : Sys := applyExt c1s1 .qr

/-- Step 3: the connection opens (scan succeeded) before the encode callback
lands; the state becomes connected/`CONNECTED`. -/
def c1s3 : Sys := applyExt c1s2 (.opened "self")

/-- Step 4: the pending `QRCode.toDataURL(...).then` callback lands late and
unconditionally sets `state = QR_READY` while `connected` is still true
(source lines 318–324). -/
def c1s4 : Sys := applyExt c1s3 (.qrEncoded "imgC1" 1000)

/-- Step 5: `initializeWhatsApp` is called; the strict already-connected
check returns early without correcting the phase (lines 732–749). -/
def c1s5 : Sys := (initializeWhatsApp c1s4 envI0).1

/-- Claim C1, counterexample.  The state reached after the public operation
`initializeWhatsApp` returns has `connected = true` with phase `QR_READY`,
refuting the claimed biconditional for reachable post-operation states. -/
theorem init_returns_connected_qr_ready_cex :
    Reachable c1s5 ∧ c1s5.connected = true ∧ c1s5.state = Phase.QR_READY := by
  refine ⟨?_, rfl, rfl⟩
  have t1 : Relation.ReflTransGen Step initialState c1s1 :=
    Relation.ReflTransGen.single (Step.initWA initialState envI0)
  have t2 : Relation.ReflTransGen Step initialState c1s2 :=
    t1.tail (Step.ext c1s1 ExtEvent.qr)
  have t3 : Relation.ReflTransGen Step initialState c1s3 :=
    t2.tail (Step.ext c1s2 (ExtEvent.opened "self"))
  have t4 : Relation.ReflTransGen Step initialState c1s4 :=
    t3.tail (Step.ext c1s3 (ExtEvent.qrEncoded "imgC1" 1000))
  exact t4.tail (Step.initWA c1s4 envI0)

end WAService
